import Mathlib

/-!
Shallow embedding of the `erp_vetmed` admin panel: the categories list page,
the category and product server actions, the category and product dialogs,
and the SQL schema (tables, unique constraints, foreign-key policies,
seed-data upserts) that ship with the repository.

JavaScript strings are modelled as `List Char`; `null`-able strings as
`Option`; JS object literals sent to the database as association lists of
JSON values; SQL `DECIMAL(10,2)` and JS numbers as `Rat` (with a separate
constructor for `NaN`).
-/

namespace VetMed

/-- A JavaScript string, modelled as its list of characters. -/
abbrev Str := List Char

/-- Coerce a Lean string literal to the `Str` model. -/
def str (s : String) : Str := s.data

/-- JS `String.prototype.toLowerCase`, character-wise. -/
def toLowerStr (s : Str) : Str := s.map Char.toLower

/-- Whether the first list occurs at the head of the second
(helper for substring containment). -/
def startsW : Str → Str → Bool
  | [], _ => true
  | _ :: _, [] => false
  | a :: as, b :: bs => a == b && startsW as bs

/-- JS `String.prototype.includes`: the needle occurs contiguously in the
haystack. -/
def containsSub (n : Str) : Str → Bool
  | [] => startsW n []
  | b :: bs => startsW n (b :: bs) || containsSub n bs

/-- Lexicographic order on strings (character code points), the order the
database uses for `ORDER BY name`. -/
def strLe : Str → Str → Bool
  | [], _ => true
  | _ :: _, [] => false
  | a :: as, b :: bs => if a = b then strLe as bs else decide (a < b)

/-- JS truthiness of a nullable string: non-null and non-empty. -/
def truthyStr : Option Str → Bool
  | none => false
  | some [] => false
  | some (_ :: _) => true

/-- JS `x || d` on a nullable string with a string default. -/
def jsOrDefault (x : Option Str) (d : Str) : Str :=
  match x with
  | none => d
  | some [] => d
  | some s => s

/-- JS `x || null` on a nullable string: an empty or absent string
becomes null. -/
def jsOrNull (x : Option Str) : Option Str :=
  match x with
  | none => none
  | some [] => none
  | some s => some s

/-- A JSON value as sent to the database client: null, a string, a number,
or NaN (what JS `parseFloat`/`parseInt` produce on unparsable input). -/
inductive JVal where
  | jnull : JVal
  | jstr : Str → JVal
  | jnum : Rat → JVal
  | jnan : JVal
  deriving DecidableEq, Repr

/-- A JS object literal sent as a database payload: ordered key/value list. -/
abbrev JObj := List (Str × JVal)

/-- Look a key up in a payload object. -/
def jGet (o : JObj) (k : Str) : Option JVal :=
  match o.find? (fun p => p.1 = k) with
  | none => none
  | some p => some p.2

/-- The list of column names a payload writes. -/
def jKeys (o : JObj) : List Str := o.map Prod.fst

/-- A submitted HTML form, as the `FormData` the dialogs build: ordered
field-name/value pairs. -/
abbrev FormData := List (Str × Str)

/-- `FormData.prototype.get`: first value under the name, else null. -/
def fdGet (fd : FormData) (k : Str) : Option Str :=
  match fd.find? (fun p => p.1 = k) with
  | none => none
  | some p => some p.2

/-- Numeric value of a decimal digit character, if it is one. -/
def digitVal (c : Char) : Option Nat :=
  if c.isDigit then some (c.toNat - 48) else none

/-- Split a string into its leading run of decimal digits (as digit values)
and the remainder. -/
def takeDigits : Str → List Nat × Str
  | [] => ([], [])
  | c :: cs =>
    match digitVal c with
    | none => ([], c :: cs)
    | some d =>
      let r := takeDigits cs
      (d :: r.1, r.2)

/-- Value of a digit list read as a decimal integer. -/
def digitsVal (ds : List Nat) : Nat := ds.foldl (fun acc d => 10 * acc + d) 0

/-- JS `parseFloat`, restricted to the optional-sign decimal literals the
dialogs' number inputs produce; `none` models `NaN`. -/
def parseFloatM (s : Str) : Option Rat :=
  let (neg, rest) :=
    match s with
    | '-' :: cs => (true, cs)
    | '+' :: cs => (false, cs)
    | cs => (false, cs)
  let (ds, rest2) := takeDigits rest
  let fs : List Nat :=
    match rest2 with
    | '.' :: cs => (takeDigits cs).1
    | _ => []
  if ds = [] ∧ fs = [] then none
  else
    let mag : Rat := (digitsVal ds : Rat) + (digitsVal fs : Rat) / ((10 : Rat) ^ fs.length)
    some (if neg then -mag else mag)

/-- JS `parseInt` (radix 10), restricted likewise; `none` models `NaN`. -/
def parseIntM (s : Str) : Option Int :=
  let (neg, rest) :=
    match s with
    | '-' :: cs => (true, cs)
    | '+' :: cs => (false, cs)
    | cs => (false, cs)
  let (ds, _) := takeDigits rest
  if ds = [] then none
  else some (if neg then -(digitsVal ds : Int) else (digitsVal ds : Int))

/-- JS `parseFloat(x)` where `x` came from `formData.get` (null parses
to NaN), landing in the payload as a JSON number or NaN. -/
def parseFloatJS (x : Option Str) : JVal :=
  match x with
  | none => .jnan
  | some s =>
    match parseFloatM s with
    | none => .jnan
    | some q => .jnum q

/-- JS `parseInt(x)` likewise. -/
def parseIntJS (x : Option Str) : JVal :=
  match x with
  | none => .jnan
  | some s =>
    match parseIntM s with
    | none => .jnan
    | some n => .jnum (n : Rat)

/-- A nullable string as a JSON value (`as string` is a TypeScript cast
only, so a null survives to the payload). -/
def jOfOptStr (x : Option Str) : JVal :=
  match x with
  | none => .jnull
  | some s => .jstr s

/-- A row of the `categories` table (`Category` type in
`app/actions/categories`). -/
structure Category where
  id : Str
  name : Str
  description : Option Str
  created_at : Str
  updated_at : Str
  deriving DecidableEq, Repr

/-- A row of the `products` table (per the schema with the `categories`
table: `category_id UUID REFERENCES categories(id) ON DELETE SET NULL`). -/
structure Product where
  id : Str
  name : Str
  description : Option Str
  category_id : Option Str
  sku : Str
  price : Rat
  cost : Option Rat
  stock : Int
  min_stock : Int
  unit : Str
  status : Str
  created_at : Str
  updated_at : Str
  deriving DecidableEq, Repr

/-- A row of the `orders` table (the fields the claims touch). -/
structure OrderRow where
  id : Str
  order_number : Str
  customer_id : Option Str
  total_amount : Rat
  status : Str
  payment_status : Str
  deriving DecidableEq, Repr

/-- The `{success, error}` shape every mutation action returns. -/
structure ActionResult where
  success : Bool
  error : Option Str
  deriving DecidableEq, Repr

/-- The payload `createCategory` inserts:
`[{ name: formData.get('name'), description: formData.get('description') || null }]`. -/
def createCategoryPayload (fd : FormData) : JObj :=
  [ (str "name", jOfOptStr (fdGet fd (str "name"))),
    (str "description", jOfOptStr (jsOrNull (fdGet fd (str "description")))) ]

/-- The payload `updateCategory` sends: name and description as above plus
`updated_at: new Date().toISOString()` computed in application code
(`now` is the serialized current time). -/
def updateCategoryPayload (fd : FormData) (now : Str) : JObj :=
  [ (str "name", jOfOptStr (fdGet fd (str "name"))),
    (str "description", jOfOptStr (jsOrNull (fdGet fd (str "description")))),
    (str "updated_at", .jstr now) ]

/-- The payload `createProduct` and `updateProduct` build from the form.
Note the third key is `category` — read from `formData.get('category')` —
while the product dialog names its select `category_id`. -/
def productPayload (fd : FormData) : JObj :=
  [ (str "name", jOfOptStr (fdGet fd (str "name"))),
    (str "description", jOfOptStr (fdGet fd (str "description"))),
    (str "category", jOfOptStr (fdGet fd (str "category"))),
    (str "sku", jOfOptStr (fdGet fd (str "sku"))),
    (str "price", parseFloatJS (fdGet fd (str "price"))),
    (str "cost",
      if truthyStr (fdGet fd (str "cost")) then parseFloatJS (fdGet fd (str "cost"))
      else .jnull),
    (str "stock", parseIntJS (fdGet fd (str "stock"))),
    (str "min_stock", parseIntJS (fdGet fd (str "min_stock"))),
    (str "unit", .jstr (jsOrDefault (fdGet fd (str "unit")) (str "unit"))),
    (str "status", jOfOptStr (fdGet fd (str "status"))) ]

/-- Outcome the database driver reports for a call: `none` when the call
succeeded, `some m` when it failed with message `m`. -/
abbrev DriverOutcome := Option Str

/-- Map a driver outcome to the action's `{success, error}` return, exactly
as every mutation action does:
`if (error) return { success: false, error: error.message };
return { success: true, error: null }`. -/
def mutationReturn (dbo : DriverOutcome) : ActionResult :=
  match dbo with
  | some m => { success := false, error := some m }
  | none => { success := true, error := none }

/-- `createCategory(formData)`: the payload it inserts and the result it
returns for a given driver outcome. -/
def createCategory (fd : FormData) (dbo : DriverOutcome) : JObj × ActionResult :=
  (createCategoryPayload fd, mutationReturn dbo)

/-- `updateCategory(id, formData)`: payload sent and result returned. -/
def updateCategory (_id : Str) (fd : FormData) (now : Str) (dbo : DriverOutcome) :
    JObj × ActionResult :=
  (updateCategoryPayload fd now, mutationReturn dbo)

/-- `deleteCategory(id)`: result returned for a given driver outcome. -/
def deleteCategory (_id : Str) (dbo : DriverOutcome) : ActionResult :=
  mutationReturn dbo

/-- `createProduct(formData)`: payload inserted and result returned. -/
def createProduct (fd : FormData) (dbo : DriverOutcome) : JObj × ActionResult :=
  (productPayload fd, mutationReturn dbo)

/-- `updateProduct(id, formData)`: payload sent and result returned. -/
def updateProduct (_id : Str) (fd : FormData) (dbo : DriverOutcome) :
    JObj × ActionResult :=
  (productPayload fd, mutationReturn dbo)

/-- `deleteProduct(id)`: result returned for a given driver outcome. -/
def deleteProduct (_id : Str) (dbo : DriverOutcome) : ActionResult :=
  mutationReturn dbo

/-- Order on category rows used by `.order('name', { ascending: true })`. -/
def catLe (a b : Category) : Prop := strLe a.name b.name = true

/-- Order on product rows used by `.order('created_at', { ascending: false })`:
newest first. -/
def prodNewerFirst (a b : Product) : Prop := strLe b.created_at a.created_at = true

/-- A `{id, name}` row as returned by `getCategoriesForSelect`. -/
structure CatRef where
  id : Str
  name : Str
  deriving DecidableEq, Repr

/-- Order on select rows by name. -/
def catRefLe (a b : CatRef) : Prop := strLe a.name b.name = true

instance : DecidableRel catLe := fun a b => by unfold catLe; infer_instance

instance : DecidableRel prodNewerFirst := fun a b => by unfold prodNewerFirst; infer_instance

instance : DecidableRel catRefLe := fun a b => by unfold catRefLe; infer_instance

/-- The database executing `ORDER BY name ASC` on the categories table. -/
def sortCategoriesByName (table : List Category) : List Category :=
  List.insertionSort catLe table

/-- The database executing `ORDER BY created_at DESC` on the products table. -/
def sortProductsByCreatedDesc (table : List Product) : List Product :=
  List.insertionSort prodNewerFirst table

/-- `getCategories()`: on driver failure, empty list plus the driver message;
otherwise the table ordered by name ascending. -/
def getCategories (table : List Category) (dbo : DriverOutcome) :
    List Category × Option Str :=
  match dbo with
  | some m => ([], some m)
  | none => (sortCategoriesByName table, none)

/-- `getCategoriesForSelect()`: `select('id, name').order('name')`. -/
def getCategoriesForSelect (table : List Category) (dbo : DriverOutcome) :
    List CatRef × Option Str :=
  match dbo with
  | some m => ([], some m)
  | none => ((sortCategoriesByName table).map (fun c => ⟨c.id, c.name⟩), none)

/-- A product row joined with its category, after `getProducts`'s transform
adding `category_name: product.categories?.name || null`. -/
structure ProductJoined where
  product : Product
  category_name : Option Str
  deriving DecidableEq, Repr

/-- The embedded `categories (id, name)` join resolved through the
`category_id` foreign key, then `?.name || null`. -/
def joinedCategoryName (ctable : List Category) (p : Product) : Option Str :=
  match p.category_id with
  | none => none
  | some cid =>
    match ctable.find? (fun c => c.id = cid) with
    | none => none
    | some c => jsOrNull (some c.name)

/-- `getProducts()`: ordered newest-first, each row joined with its
category's name. -/
def getProducts (ptable : List Product) (ctable : List Category)
    (dbo : DriverOutcome) : List ProductJoined × Option Str :=
  match dbo with
  | some m => ([], some m)
  | none =>
    ((sortProductsByCreatedDesc ptable).map
       (fun p => ⟨p, joinedCategoryName ctable p⟩), none)

/-- The React state of `CategoriesPage` that the claims touch. -/
structure PageState where
  categories : List Category
  filteredCategories : List Category
  searchTerm : Str
  isLoading : Bool
  isDeleting : Option Str
  deriving DecidableEq, Repr

/-- `fetchCategories` settling on the result of `getCategories`: the check
is `if (error) throw new Error(error)` on the error *string*, i.e. JS
truthiness — a truthy (non-null, non-empty) message throws before any
`setCategories`, so only `isLoading` changes; otherwise (including an
empty-string message) both lists are replaced by the result. -/
def fetchCategoriesSettle (s : PageState) (res : List Category × Option Str) :
    PageState :=
  if truthyStr res.2 then { s with isLoading := false }
  else { s with categories := res.1, filteredCategories := res.1, isLoading := false }

/-- `handleDelete` between `setIsDeleting(id)` and the `await` settling. -/
def handleDeleteInFlight (s : PageState) (rowId : Str) : PageState :=
  { s with isDeleting := some rowId }

/-- `handleDelete` settling on the result of `deleteCategory`:
`if (error) throw` tests the error string's JS truthiness — a truthy message
throws (list untouched, no refetch); otherwise `if (success)` triggers
`fetchCategories` (the returned flag); `finally` clears `isDeleting`. -/
def handleDeleteSettle (s : PageState) (res : ActionResult) : PageState × Bool :=
  if truthyStr res.error then ({ s with isDeleting := none }, false)
  else ({ s with isDeleting := none }, res.success)

/-- The search-filter predicate of the page's effect:
`category.name.toLowerCase().includes(term.toLowerCase()) ||
(category.description && category.description.toLowerCase().includes(...))`. -/
def categoryMatches (term : Str) (c : Category) : Bool :=
  containsSub (toLowerStr term) (toLowerStr c.name) ||
  (match c.description with
   | none => false
   | some d => !d.isEmpty && containsSub (toLowerStr term) (toLowerStr d))

/-- The page's filter effect: with a truthy (non-empty) search term, filter
by `categoryMatches`; otherwise show every fetched category. -/
def searchFilterEffect (term : Str) (cats : List Category) : List Category :=
  if term = [] then cats
  else cats.filter (categoryMatches term)

/-- Modelled from the spec wording for comparison: show exactly those
categories whose name, or whose non-null description, contains the search
term as a case-insensitive substring; with an empty term show everything. -/
def specShownCategories (term : Str) (cats : List Category) : List Category :=
  if term = [] then cats
  else cats.filter (fun c =>
    containsSub (toLowerStr term) (toLowerStr c.name) ||
    (match c.description with
     | none => false
     | some d => containsSub (toLowerStr term) (toLowerStr d)))

/-- The `isSaving` prop the categories page passes to `CategoryDialog`:
hardcoded `false` at the render site. -/
def categoriesPageIsSavingProp : Bool := false

/-- The category dialog's Save button `disabled` attribute. -/
def categoryDialogSaveDisabled (isSaving : Bool) : Bool := isSaving

/-- A category row's delete button `disabled` attribute:
`isDeleting === category.id`. -/
def deleteButtonDisabled (isDeleting : Option Str) (rowId : Str) : Bool :=
  isDeleting == some rowId

/-- The product dialog's submit button `disabled` attribute. -/
def productDialogSubmitDisabled (loading : Bool) : Bool := loading

/-- The product dialog's Cancel button `disabled` attribute. -/
def productDialogCancelDisabled (loading : Bool) : Bool := loading

/-- The product dialog's `loading` state between `setLoading(true)` and the
`finally` of `handleSubmit`. -/
def productDialogLoadingInFlight : Bool := true

/-- The category dialog's description `onChange`:
`description: e.target.value || null`. -/
def categoryDialogDescOnChange (v : Str) : Option Str := jsOrNull (some v)

/-- The `FormData` the product dialog's form serializes to: its named fields
in document order (the category select is named `category_id`). -/
def productDialogFormData (na de cid sk un pr co st ms sta : Str) : FormData :=
  [ (str "name", na), (str "description", de), (str "category_id", cid),
    (str "sku", sk), (str "unit", un), (str "price", pr), (str "cost", co),
    (str "stock", st), (str "min_stock", ms), (str "status", sta) ]

/-- The tables of the schema the claims touch. -/
structure DBState where
  categories : List Category
  products : List Product
  deriving DecidableEq, Repr

/-- `DELETE FROM categories WHERE id = cid` under the schema's
`category_id UUID REFERENCES categories(id) ON DELETE SET NULL`: the
category rows with that id are removed and every product referencing it has
its `category_id` set to null. The referential action runs as an UPDATE on
each referencing row, firing the schema's `update_products_updated_at`
BEFORE UPDATE trigger, which sets that row's `updated_at = NOW()` (`now` is
the statement's serialized time). No constraint can make this delete fail,
so the driver reports success. -/
def dbDeleteCategory (db : DBState) (cid : Str) (now : Str) :
    DBState × DriverOutcome :=
  ({ categories := db.categories.filter (fun c => !(c.id == cid)),
     products := db.products.map (fun p =>
       if p.category_id = some cid then
         { p with category_id := none, updated_at := now }
       else p) },
   none)

/-- `deleteCategory(id)` run against the schema model: the new database
state and the action's returned `{success, error}`. -/
def deleteCategoryDB (db : DBState) (cid : Str) (now : Str) :
    DBState × ActionResult :=
  let r := dbDeleteCategory db cid now
  (r.1, mutationReturn r.2)

/-- The driver's duplicate-key error message (its exact text is opaque to
the application, which passes it through). -/
def dupKeyMsg : Str := str "duplicate key value violates unique constraint"

/-- Plain `INSERT` into `categories` under `name TEXT NOT NULL UNIQUE`:
a duplicate name errors and leaves the table unchanged. -/
def insertCategoryRow (table : List Category) (row : Category) :
    List Category × DriverOutcome :=
  if table.any (fun c => c.name == row.name) then (table, some dupKeyMsg)
  else (table ++ [row], none)

/-- Plain `INSERT` into `products` under `sku TEXT UNIQUE NOT NULL`. -/
def insertProductRow (table : List Product) (row : Product) :
    List Product × DriverOutcome :=
  if table.any (fun p => p.sku == row.sku) then (table, some dupKeyMsg)
  else (table ++ [row], none)

/-- Plain `INSERT` into `orders` under `order_number TEXT UNIQUE NOT NULL`. -/
def insertOrderRow (table : List OrderRow) (row : OrderRow) :
    List OrderRow × DriverOutcome :=
  if table.any (fun o => o.order_number == row.order_number) then (table, some dupKeyMsg)
  else (table ++ [row], none)

/-- The seed script's category insert:
`INSERT INTO categories ... ON CONFLICT (name) DO NOTHING` — a duplicate
name neither errors nor touches the existing row. -/
def seedCategoryInsert (table : List Category) (row : Category) :
    List Category × DriverOutcome :=
  if table.any (fun c => c.name == row.name) then (table, none)
  else (table ++ [row], none)

/-- The seed script's product insert:
`INSERT INTO products ... ON CONFLICT (sku) DO UPDATE SET name, description,
category_id, price, cost, stock, min_stock, status = EXCLUDED....` — a
duplicate SKU updates those columns of the existing row instead of erroring
(not `unit`, not `created_at`); the DO UPDATE path is an UPDATE, so it fires
the `update_products_updated_at` BEFORE UPDATE trigger, which sets the row's
`updated_at = NOW()` (`now` is the statement's serialized time). -/
def seedProductUpsert (table : List Product) (row : Product) (now : Str) :
    List Product × DriverOutcome :=
  if table.any (fun p => p.sku == row.sku) then
    (table.map (fun p =>
       if p.sku = row.sku then
         { p with name := row.name, description := row.description,
                  category_id := row.category_id, price := row.price,
                  cost := row.cost, stock := row.stock,
                  min_stock := row.min_stock, status := row.status,
                  updated_at := now }
       else p),
     none)
  else (table ++ [row], none)

/-- Newest-first order on joined product rows (by the underlying product's
`created_at`). -/
def joinedNewerFirst (a b : ProductJoined) : Prop :=
  strLe b.product.created_at a.product.created_at = true

/-- Relation between a product row before and after a category delete: a
row that referenced the deleted category has its reference cleared and its
`updated_at` set by the BEFORE UPDATE trigger to the delete's time `now`;
a row that did not is wholly unchanged; every other column of a referencing
row is unchanged. -/
def sameButCategoryCleared (cid now : Str) (p q : Product) : Prop :=
  (p.category_id = some cid → q.category_id = none ∧ q.updated_at = now) ∧
  (p.category_id ≠ some cid → q.category_id = p.category_id ∧ q.updated_at = p.updated_at) ∧
  q.id = p.id ∧ q.name = p.name ∧ q.description = p.description ∧
  q.sku = p.sku ∧ q.price = p.price ∧ q.cost = p.cost ∧
  q.stock = p.stock ∧ q.min_stock = p.min_stock ∧ q.unit = p.unit ∧
  q.status = p.status ∧ q.created_at = p.created_at

/-- An example category row. -/
def catEx : Category :=
  { id := str "c1", name := str "Food", description := some (str "Pet food"),
    created_at := str "2024-01-01", updated_at := str "2024-01-01" }

/-- A second category row, duplicating `catEx`'s name under a different id. -/
def catExDupName : Category :=
  { id := str "c2", name := str "Food", description := none,
    created_at := str "2024-02-01", updated_at := str "2024-02-01" }

/-- An example product row referencing `catEx`. -/
def prodEx : Product :=
  { id := str "p1", name := str "Dog Food - Premium",
    description := some (str "Dry dog food"), category_id := some (str "c1"),
    sku := str "FOOD-001", price := (8999 : Rat) / 100, cost := some ((50 : Rat)),
    stock := 30, min_stock := 5, unit := str "unit", status := str "active",
    created_at := str "2024-01-02", updated_at := str "2024-01-02" }

/-- A product row duplicating `prodEx`'s SKU with different field values. -/
def prodExDupSku : Product :=
  { id := str "p2", name := str "Dog Food - Premium v2",
    description := none, category_id := none,
    sku := str "FOOD-001", price := (9999 : Rat) / 100, cost := none,
    stock := 10, min_stock := 2, unit := str "bag", status := str "inactive",
    created_at := str "2024-03-01", updated_at := str "2024-03-01" }

/-- An example order row. -/
def orderEx : OrderRow :=
  { id := str "o1", order_number := str "ORD-2024-001",
    customer_id := none, total_amount := (15697 : Rat) / 100,
    status := str "completed", payment_status := str "paid" }

/-- An order row duplicating `orderEx`'s order number. -/
def orderExDupNumber : OrderRow :=
  { id := str "o2", order_number := str "ORD-2024-001",
    customer_id := none, total_amount := (42 : Rat),
    status := str "pending", payment_status := str "unpaid" }

/-- An example database state: one category, referenced by one product and
not by another. -/
def dbEx : DBState :=
  { categories := [catEx],
    products := [prodEx, prodExDupSku] }

/-- An example page state holding one rendered category. -/
def pageStateEx : PageState :=
  { categories := [catEx], filteredCategories := [catEx],
    searchTerm := [], isLoading := false, isDeleting := none }

/-- A category form submission whose description field is the empty string. -/
def fdCatEmptyDesc : FormData :=
  [(str "name", str "Food"), (str "description", [])]

/-- A category form submission with a non-empty description. -/
def fdCatEx : FormData :=
  [(str "name", str "Food"), (str "description", str "Pet food")]

/-- The `FormData` of a concrete product-dialog submission with a category
selected in the `category_id` select field. -/
def fdProductDialogEx : FormData :=
  productDialogFormData (str "Pet Shampoo") (str "Hypoallergenic pet shampoo")
    (str "c1") (str "GROOM-001") (str "unit") (str "19.99") (str "8.00")
    (str "75") (str "15") (str "active")

/-- Lexicographic string order is total. -/
theorem strLe_total : ∀ s t : Str, strLe s t = true ∨ strLe t s = true
  | [], _ => Or.inl rfl
  | _ :: _, [] => Or.inr rfl
  | a :: as, b :: bs => by
    by_cases h : a = b
    · subst h
      rcases strLe_total as bs with h1 | h1
      · exact Or.inl (by simp [strLe, h1])
      · exact Or.inr (by simp [strLe, h1])
    · rcases lt_or_gt_of_ne h with hlt | hgt
      · exact Or.inl (by simp [strLe, h, hlt])
      · exact Or.inr (by simp [strLe, Ne.symm h, hgt])

/-- Lexicographic string order is transitive. -/
theorem strLe_trans : ∀ s t u : Str,
    strLe s t = true → strLe t u = true → strLe s u = true
  | [], _, _, _, _ => rfl
  | _ :: _, [], _, h1, _ => by simp [strLe] at h1
  | _ :: _, _ :: _, [], _, h2 => by simp [strLe] at h2
  | a :: as, b :: bs, c :: cs, h1, h2 => by
    by_cases hab : a = b <;> by_cases hbc : b = c
    · subst hab; subst hbc
      simp only [strLe, if_pos rfl] at h1 h2 ⊢
      exact strLe_trans as bs cs h1 h2
    · subst hab
      simp only [strLe, if_neg hbc] at h2
      simp only [strLe, if_neg hbc]
      exact h2
    · subst hbc
      simp only [strLe, if_neg hab] at h1
      simp only [strLe, if_neg hab]
      exact h1
    · simp only [strLe, if_neg hab] at h1
      simp only [strLe, if_neg hbc] at h2
      have hac : a < c := lt_trans (of_decide_eq_true h1) (of_decide_eq_true h2)
      simp only [strLe, if_neg (ne_of_lt hac)]
      exact decide_eq_true hac

instance : IsTotal Category catLe := ⟨fun a b => strLe_total a.name b.name⟩

instance : IsTrans Category catLe :=
  ⟨fun a b c h1 h2 => strLe_trans a.name b.name c.name h1 h2⟩

instance : IsTotal Product prodNewerFirst :=
  ⟨fun a b => strLe_total b.created_at a.created_at⟩

instance : IsTrans Product prodNewerFirst :=
  ⟨fun a b c h1 h2 => strLe_trans c.created_at b.created_at a.created_at h2 h1⟩

instance : IsTotal CatRef catRefLe := ⟨fun a b => strLe_total a.name b.name⟩

instance : IsTrans CatRef catRefLe :=
  ⟨fun a b c h1 h2 => strLe_trans a.name b.name c.name h1 h2⟩

/-- A non-empty needle is never contained in the empty haystack. -/
theorem containsSub_nil (c : Char) (cs : Str) : containsSub (c :: cs) [] = false := rfl

/-- Lowercasing preserves non-emptiness. -/
theorem toLowerStr_ne_nil {s : Str} (h : s ≠ []) : toLowerStr s ≠ [] := by
  cases s with
  | nil => exact absurd rfl h
  | cons a as => simp [toLowerStr]

/-- Claim C2: every mutation action (create/update/delete for categories and
products) returns success true with a null error exactly when the database
driver reports no error, and otherwise success false with the driver's
message passed through unmodified; list actions on failure return an empty
data array paired with the unmodified message. -/
theorem mutation_actions_uniform_error_contract :
    ∀ (fd : FormData) (rid now m : Str) (dbo : DriverOutcome)
      (ctable : List Category) (ptable : List Product),
      (((createCategory fd dbo).2.success = true ↔ dbo = none) ∧
        (createCategory fd dbo).2.error = dbo) ∧
      (((updateCategory rid fd now dbo).2.success = true ↔ dbo = none) ∧
        (updateCategory rid fd now dbo).2.error = dbo) ∧
      (((deleteCategory rid dbo).success = true ↔ dbo = none) ∧
        (deleteCategory rid dbo).error = dbo) ∧
      (((createProduct fd dbo).2.success = true ↔ dbo = none) ∧
        (createProduct fd dbo).2.error = dbo) ∧
      (((updateProduct rid fd dbo).2.success = true ↔ dbo = none) ∧
        (updateProduct rid fd dbo).2.error = dbo) ∧
      (((deleteProduct rid dbo).success = true ↔ dbo = none) ∧
        (deleteProduct rid dbo).error = dbo) ∧
      getCategories ctable (some m) = ([], some m) ∧
      getCategoriesForSelect ctable (some m) = ([], some m) ∧
      getProducts ptable ctable (some m) = ([], some m) := by
  intro fd rid now m dbo ctable ptable
  cases dbo <;>
    simp [createCategory, updateCategory, deleteCategory, createProduct,
      updateProduct, deleteProduct, mutationReturn, getCategories,
      getCategoriesForSelect, getProducts]

/-- Claim C7: for every category list and search term, the page's
client-side filter shows exactly the categories whose name, or whose
non-null description, contains the term as a case-insensitive substring,
and shows every fetched category when the term is empty. -/
theorem search_filter_matches_spec :
    ∀ (term : Str) (cats : List Category),
      searchFilterEffect term cats = specShownCategories term cats := by
  intro term cats
  unfold searchFilterEffect specShownCategories
  by_cases h : term = []
  · simp [h]
  · simp only [if_neg h]
    apply List.filter_congr
    intro c _
    unfold categoryMatches
    cases hd : c.description with
    | none => rfl
    | some d =>
      cases d with
      | nil =>
        have hne := toLowerStr_ne_nil h
        cases htl : toLowerStr term with
        | nil => exact absurd htl hne
        | cons x xs => simp [htl, containsSub_nil, toLowerStr]
      | cons a as => simp

/-- Counterexample to claim C8 as stated: when the driver reports an error
whose message is the empty string, `getCategories` returns
`(categories := [], error := "")`, the page's `if (error) throw` truthiness
check does not throw, and `setCategories`/`setFilteredCategories` replace
the previously rendered non-empty lists with the empty result. -/
theorem empty_error_message_replaces_lists :
    (fetchCategoriesSettle pageStateEx (([] : List Category), some ([] : Str))).categories
      = [] ∧
    (fetchCategoriesSettle pageStateEx (([] : List Category), some ([] : Str))).filteredCategories
      = [] ∧
    pageStateEx.categories ≠ [] ∧
    pageStateEx.filteredCategories ≠ [] := by decide

/-- Claim C8 (amended): for every failed call whose driver error message is
non-empty, the failure only surfaces an error and leaves prior state
unchanged — the page keeps its previously rendered category lists, and a
failed delete (whose result carries success false) leaves the rendered list
as it was and triggers no refetch; an error with an empty-string message is
the exception, where the page's truthiness check takes the success branch of
the fetch and replaces the lists with the empty result. -/
theorem failed_calls_leave_state (s : PageState) (l : List Category) (m : Str)
    (r : ActionResult) (hm : m ≠ []) (hr : r.error = some m)
    (hs : r.success = false) :
    (fetchCategoriesSettle s (l, some m)).categories = s.categories ∧
    (fetchCategoriesSettle s (l, some m)).filteredCategories = s.filteredCategories ∧
    (handleDeleteSettle s r).1.categories = s.categories ∧
    (handleDeleteSettle s r).1.filteredCategories = s.filteredCategories ∧
    (handleDeleteSettle s r).2 = false := by
  have ht : truthyStr (some m) = true := by
    cases m with
    | nil => exact absurd rfl hm
    | cons a as => rfl
  refine ⟨?_, ?_, ?_, ?_, ?_⟩ <;>
    simp [fetchCategoriesSettle, handleDeleteSettle, hr, hs, ht]

/-- Witness for the amended claim C8 at a concrete page state and failed
results with a non-empty driver message. -/
theorem failed_calls_leave_state_witness :
    (fetchCategoriesSettle pageStateEx ([], some (str "boom"))).categories
        = pageStateEx.categories ∧
    (fetchCategoriesSettle pageStateEx ([], some (str "boom"))).filteredCategories
        = pageStateEx.filteredCategories ∧
    (handleDeleteSettle pageStateEx { success := false, error := some (str "boom") }).1.categories
        = pageStateEx.categories ∧
    (handleDeleteSettle pageStateEx { success := false, error := some (str "boom") }).1.filteredCategories
        = pageStateEx.filteredCategories ∧
    (handleDeleteSettle pageStateEx { success := false, error := some (str "boom") }).2 = false :=
  failed_calls_leave_state pageStateEx [] (str "boom")
    { success := false, error := some (str "boom") } (by decide) rfl rfl

/-- Claim C9: `getCategories` and `getCategoriesForSelect` return categories
sorted by name ascending, and `getProducts` returns products sorted by
`created_at` descending; each result is a permutation of the (transformed)
table. -/
theorem list_actions_ordering :
    ∀ (ctable : List Category) (ptable : List Product),
      List.Sorted catLe (getCategories ctable none).1 ∧
      ((getCategories ctable none).1).Perm ctable ∧
      List.Sorted catRefLe (getCategoriesForSelect ctable none).1 ∧
      ((getCategoriesForSelect ctable none).1).Perm
        (ctable.map (fun c => ⟨c.id, c.name⟩)) ∧
      List.Sorted joinedNewerFirst (getProducts ptable ctable none).1 ∧
      ((getProducts ptable ctable none).1).Perm
        (ptable.map (fun p => ⟨p, joinedCategoryName ctable p⟩)) := by
  intro ctable ptable
  refine ⟨?_, ?_, ?_, ?_, ?_, ?_⟩
  · exact List.sorted_insertionSort catLe ctable
  · exact List.perm_insertionSort catLe ctable
  · exact List.Pairwise.map _ (fun a b h => h) (List.sorted_insertionSort catLe ctable)
  · exact (List.perm_insertionSort catLe ctable).map _
  · exact List.Pairwise.map _ (fun a b h => h)
      (List.sorted_insertionSort prodNewerFirst ptable)
  · exact (List.perm_insertionSort prodNewerFirst ptable).map _

/-- Claim C10: a category submission whose description field is the empty
string is stored with a null description by both `createCategory` and
`updateCategory`, and the category dialog's description `onChange` converts
an emptied textarea to null. -/
theorem empty_description_stored_null (fd : FormData) (now : Str)
    (h : fdGet fd (str "description") = some []) :
    jGet (createCategoryPayload fd) (str "description") = some JVal.jnull ∧
    jGet (updateCategoryPayload fd now) (str "description") = some JVal.jnull ∧
    categoryDialogDescOnChange [] = none := by
  have e1 : jGet (createCategoryPayload fd) (str "description")
      = some (jOfOptStr (jsOrNull (fdGet fd (str "description")))) := rfl
  have e2 : jGet (updateCategoryPayload fd now) (str "description")
      = some (jOfOptStr (jsOrNull (fdGet fd (str "description")))) := rfl
  rw [e1, e2, h]
  exact ⟨rfl, rfl, rfl⟩

/-- Witness for claim C10 at a concrete submission with an emptied
description field. -/
theorem empty_description_stored_null_witness :
    jGet (createCategoryPayload fdCatEmptyDesc) (str "description") = some JVal.jnull ∧
    jGet (updateCategoryPayload fdCatEmptyDesc (str "2024-05-05")) (str "description")
      = some JVal.jnull ∧
    categoryDialogDescOnChange [] = none :=
  empty_description_stored_null fdCatEmptyDesc (str "2024-05-05") rfl

/-- Counterexample to claim C5 as stated: the FK `ON DELETE SET NULL` action
updates each referencing product row, which fires the schema's
`update_products_updated_at` BEFORE UPDATE trigger and sets that row's
`updated_at = NOW()`; so after deleting the referenced category `c1` the
referencing product's `updated_at` differs from its prior value — not "all
its other fields unchanged". The non-referencing product keeps its value. -/
theorem deleteCategory_touches_updated_at :
    (dbEx.products.map Product.category_id) = [some (str "c1"), none] ∧
    (dbEx.products.map Product.updated_at)
      = [str "2024-01-02", str "2024-03-01"] ∧
    ((deleteCategoryDB dbEx (str "c1") (str "2025-06-01T12:00:00.000Z")).1.products.map
        Product.updated_at)
      = [str "2025-06-01T12:00:00.000Z", str "2024-03-01"] ∧
    str "2024-01-02" ≠ str "2025-06-01T12:00:00.000Z" := by decide

/-- Claim C5 (amended): deleting a category that is referenced by at least
one product succeeds (success true, null error), and afterwards every
product that referenced it has a null `category_id` and an `updated_at` set
by the BEFORE UPDATE trigger to the delete's time, while all its other
fields — and every non-referencing product entirely — are unchanged. -/
theorem deleteCategory_clears_references (db : DBState) (cid now : Str)
    (h : ∃ p ∈ db.products, p.category_id = some cid) :
    (deleteCategoryDB db cid now).2.success = true ∧
    (deleteCategoryDB db cid now).2.error = none ∧
    List.Forall₂ (sameButCategoryCleared cid now) db.products
      (deleteCategoryDB db cid now).1.products := by
  refine ⟨rfl, rfl, ?_⟩
  have e : (deleteCategoryDB db cid now).1.products
      = db.products.map (fun p =>
          if p.category_id = some cid then
            { p with category_id := none, updated_at := now }
          else p) := rfl
  rw [e, List.forall₂_map_right_iff, List.forall₂_same]
  intro p _
  by_cases hp : p.category_id = some cid
  · simp [sameButCategoryCleared, if_pos hp, hp]
  · simp [sameButCategoryCleared, if_neg hp, hp]

/-- Witness for the amended claim C5 on a concrete database where one
product references the deleted category and another does not. -/
theorem deleteCategory_clears_references_witness :
    (deleteCategoryDB dbEx (str "c1") (str "2025-06-01T12:00:00.000Z")).2.success = true ∧
    (deleteCategoryDB dbEx (str "c1") (str "2025-06-01T12:00:00.000Z")).2.error = none ∧
    List.Forall₂ (sameButCategoryCleared (str "c1") (str "2025-06-01T12:00:00.000Z"))
      dbEx.products
      (deleteCategoryDB dbEx (str "c1") (str "2025-06-01T12:00:00.000Z")).1.products :=
  deleteCategory_clears_references dbEx (str "c1") (str "2025-06-01T12:00:00.000Z")
    ⟨prodEx, ⟨List.mem_cons_self prodEx _, rfl⟩⟩

/-- Counterexample to claim C6 as stated: the seed script's category insert
uses `ON CONFLICT (name) DO NOTHING`, so a create that duplicates an
existing category name neither surfaces an error nor overwrites the row —
a second no-error exception beyond the product-SKU upsert the claim admits. -/
theorem seed_category_duplicate_no_error :
    (seedCategoryInsert [catEx] catExDupName).2 = none ∧
    (seedCategoryInsert [catEx] catExDupName).1 = [catEx] := by decide

/-- Claim C6 (amended): a create that duplicates a unique key (product SKU,
order number, or category name) errors and leaves the table unchanged, with
the driver message surfaced as success false; the exceptions are the two
seed-data paths: the product seed's `ON CONFLICT (sku) DO UPDATE` updates
the existing row without error (the BEFORE UPDATE trigger also refreshing
its `updated_at`), and the category seed's `ON CONFLICT (name) DO NOTHING`
leaves the existing row untouched without error. -/
theorem unique_key_conflict_handling (fd : FormData) (ct : List Category)
    (c : Category) (pt : List Product) (p : Product) (ot : List OrderRow)
    (o : OrderRow) (now : Str)
    (hc : ct.any (fun x => x.name == c.name) = true)
    (hp : pt.any (fun x => x.sku == p.sku) = true)
    (ho : ot.any (fun x => x.order_number == o.order_number) = true) :
    (insertCategoryRow ct c).1 = ct ∧
    (insertCategoryRow ct c).2 = some dupKeyMsg ∧
    (createCategory fd (insertCategoryRow ct c).2).2
      = { success := false, error := some dupKeyMsg } ∧
    (insertProductRow pt p).1 = pt ∧
    (insertProductRow pt p).2 = some dupKeyMsg ∧
    (createProduct fd (insertProductRow pt p).2).2
      = { success := false, error := some dupKeyMsg } ∧
    (insertOrderRow ot o).1 = ot ∧
    (insertOrderRow ot o).2 = some dupKeyMsg ∧
    (seedProductUpsert pt p now).2 = none ∧
    (seedProductUpsert pt p now).1.length = pt.length ∧
    (∀ q ∈ pt, q.sku = p.sku →
      ({ q with
         name := p.name,
         description := p.description,
         category_id := p.category_id,
         price := p.price,
         cost := p.cost,
         stock := p.stock,
         min_stock := p.min_stock,
         status := p.status,
         updated_at := now } : Product)
        ∈ (seedProductUpsert pt p now).1) ∧
    (seedCategoryInsert ct c).2 = none ∧
    (seedCategoryInsert ct c).1 = ct := by
  refine ⟨?_, ?_, ?_, ?_, ?_, ?_, ?_, ?_, ?_, ?_, ?_, ?_, ?_⟩
  · simp [insertCategoryRow, hc]
  · simp [insertCategoryRow, hc]
  · simp [insertCategoryRow, hc, createCategory, mutationReturn]
  · simp [insertProductRow, hp]
  · simp [insertProductRow, hp]
  · simp [insertProductRow, hp, createProduct, mutationReturn]
  · simp [insertOrderRow, ho]
  · simp [insertOrderRow, ho]
  · simp [seedProductUpsert, hp]
  · simp [seedProductUpsert, hp]
  · intro q hq hsku
    have hmem : (if q.sku = p.sku then
        ({ q with
           name := p.name,
           description := p.description,
           category_id := p.category_id,
           price := p.price,
           cost := p.cost,
           stock := p.stock,
           min_stock := p.min_stock,
           status := p.status,
           updated_at := now } : Product)
      else q) ∈ pt.map (fun q2 => if q2.sku = p.sku then
        ({ q2 with
           name := p.name,
           description := p.description,
           category_id := p.category_id,
           price := p.price,
           cost := p.cost,
           stock := p.stock,
           min_stock := p.min_stock,
           status := p.status,
           updated_at := now } : Product)
      else q2) :=
      List.mem_map_of_mem _ hq
    rw [if_pos hsku] at hmem
    simpa [seedProductUpsert, hp] using hmem
  · simp [seedCategoryInsert, hc]
  · simp [seedCategoryInsert, hc]

/-- Witness for the amended claim C6 on concrete duplicate rows. -/
theorem unique_key_conflict_handling_witness :
    (insertCategoryRow [catEx] catExDupName).1 = [catEx] ∧
    (insertCategoryRow [catEx] catExDupName).2 = some dupKeyMsg ∧
    (createCategory fdCatEx (insertCategoryRow [catEx] catExDupName).2).2
      = { success := false, error := some dupKeyMsg } ∧
    (insertProductRow [prodEx] prodExDupSku).1 = [prodEx] ∧
    (insertProductRow [prodEx] prodExDupSku).2 = some dupKeyMsg ∧
    (createProduct fdCatEx (insertProductRow [prodEx] prodExDupSku).2).2
      = { success := false, error := some dupKeyMsg } ∧
    (insertOrderRow [orderEx] orderExDupNumber).1 = [orderEx] ∧
    (insertOrderRow [orderEx] orderExDupNumber).2 = some dupKeyMsg ∧
    (seedProductUpsert [prodEx] prodExDupSku (str "2025-06-02")).2 = none ∧
    (seedProductUpsert [prodEx] prodExDupSku (str "2025-06-02")).1.length
      = ([prodEx] : List Product).length ∧
    (∀ q ∈ ([prodEx] : List Product), q.sku = prodExDupSku.sku →
      ({ q with
         name := prodExDupSku.name,
         description := prodExDupSku.description,
         category_id := prodExDupSku.category_id,
         price := prodExDupSku.price,
         cost := prodExDupSku.cost,
         stock := prodExDupSku.stock,
         min_stock := prodExDupSku.min_stock,
         status := prodExDupSku.status,
         updated_at := str "2025-06-02" } : Product)
        ∈ (seedProductUpsert [prodEx] prodExDupSku (str "2025-06-02")).1) ∧
    (seedCategoryInsert [catEx] catExDupName).2 = none ∧
    (seedCategoryInsert [catEx] catExDupName).1 = [catEx] :=
  unique_key_conflict_handling fdCatEx [catEx] catExDupName [prodEx] prodExDupSku
    [orderEx] orderExDupNumber (str "2025-06-02") (by decide) (by decide) (by decide)

/-- Counterexample to claim C3 as stated: `updateCategory`'s payload is not
limited to form-derived fields — it includes an `updated_at` key whose value
is the timestamp computed in application code
(`updated_at: new Date().toISOString()`). -/
theorem updateCategory_payload_includes_updated_at :
    jGet (updateCategoryPayload fdCatEx (str "2024-05-05T00:00:00.000Z"))
        (str "updated_at")
      = some (JVal.jstr (str "2024-05-05T00:00:00.000Z")) ∧
    (str "updated_at")
      ∈ jKeys (updateCategoryPayload fdCatEx (str "2024-05-05T00:00:00.000Z")) := by
  decide

/-- Claim C3 (amended): every mutation payload other than `updateCategory`'s
contains exactly the entity's form-derived fields and never `updated_at`;
`updateCategory` alone additionally sends an application-computed
`updated_at` timestamp alongside its form-derived fields. -/
theorem mutation_payloads_form_derived :
    ∀ (fd : FormData) (now : Str),
      jKeys (createCategoryPayload fd) = [str "name", str "description"] ∧
      jKeys (productPayload fd) =
        [str "name", str "description", str "category", str "sku", str "price",
         str "cost", str "stock", str "min_stock", str "unit", str "status"] ∧
      (str "updated_at") ∉ jKeys (createCategoryPayload fd) ∧
      (str "updated_at") ∉ jKeys (productPayload fd) ∧
      jKeys (updateCategoryPayload fd now)
        = [str "name", str "description", str "updated_at"] ∧
      jGet (updateCategoryPayload fd now) (str "updated_at") = some (JVal.jstr now) := by
  intro fd now
  refine ⟨rfl, rfl, ?_, ?_, rfl, rfl⟩
  · rw [show jKeys (createCategoryPayload fd) = [str "name", str "description"] from rfl]
    decide
  · rw [show jKeys (productPayload fd)
        = [str "name", str "description", str "category", str "sku", str "price",
           str "cost", str "stock", str "min_stock", str "unit", str "status"] from rfl]
    decide

/-- Claim C1 (code bug): the product dialog submits the selected category
under the form field `category_id`, but `createProduct`/`updateProduct`
read `formData.get('category')`; so on a concrete dialog submission the
payload's `category` value is null, the payload has no `category_id` key at
all, and the selected category is dropped — while the other fields do carry
the parsed form values. -/
theorem createProduct_drops_selected_category :
    fdGet fdProductDialogEx (str "category_id") = some (str "c1") ∧
    jGet (productPayload fdProductDialogEx) (str "category") = some JVal.jnull ∧
    jGet (productPayload fdProductDialogEx) (str "category_id") = none ∧
    jGet (productPayload fdProductDialogEx) (str "name")
      = some (JVal.jstr (str "Pet Shampoo")) ∧
    jGet (productPayload fdProductDialogEx) (str "sku")
      = some (JVal.jstr (str "GROOM-001")) ∧
    jGet (productPayload fdProductDialogEx) (str "price")
      = some (JVal.jnum ((1999 : Rat) / 100)) ∧
    jGet (productPayload fdProductDialogEx) (str "stock")
      = some (JVal.jnum (75 : Rat)) := by
  refine ⟨by decide, by decide, by decide, by decide, by decide, ?_, ?_⟩
  · rw [show jGet (productPayload fdProductDialogEx) (str "price")
        = some (JVal.jnum (((19 : Nat) : Rat)
            + ((99 : Nat) : Rat) / ((10 : Rat) ^ (2 : Nat)))) from rfl]
    norm_num
  · rw [show jGet (productPayload fdProductDialogEx) (str "stock")
        = some (JVal.jnum (((75 : Nat) : Int) : Rat)) from rfl]
    norm_num

/-- Claim C4 (code bug): the delete buttons and the product dialog's buttons
are disabled while their call is in flight, but the category dialog's Save
button is never disabled — the categories page hardcodes its `isSaving`
prop to `false`, so even with a save in flight the button stays enabled. -/
theorem category_save_button_never_disabled :
    categoryDialogSaveDisabled categoriesPageIsSavingProp = false ∧
    productDialogSubmitDisabled productDialogLoadingInFlight = true ∧
    productDialogCancelDisabled productDialogLoadingInFlight = true ∧
    deleteButtonDisabled (handleDeleteInFlight pageStateEx (str "c1")).isDeleting
      (str "c1") = true := by
  decide

end VetMed
